import Mathlib

/-!
Shallow embedding of `src/tinySA_python.py` (class `TinySA`): the serial
framing engine (`getSerialReturn`), the response normalizer (`cleanReturn`),
and the per-command dispatch layer (argument validation plus wire formatting).

Bytes are modelled as `Nat` (byte codes: 13 = CR, 10 = LF, 62 = the prompt
delimiter byte, 99 104 62 = the prompt token b left-quote ch> ).  The serial
device is modelled as the list of chunks that successive
`ser.read(ser.in_waiting)` calls deliver; the unbounded Python `while True`
loop is modelled by recursion over that chunk list, with `none` standing for
the loop never breaking (blocking forever once no further bytes arrive).
-/

namespace TinySA

/-- Boolean test that `pat` is an initial segment of `s` (byte-wise). -/
def startsWith : List Nat → List Nat → Bool
  | [], _ => true
  | _ :: _, [] => false
  | p :: ps, x :: xs => (p == x) && startsWith ps xs

/-- Index of the first occurrence of the byte pattern `pat` as a contiguous
substring of `s`; `none` when absent.  This is Python's `bytes.index`
(raising) / `bytes.find` (returning -1), with both failure styles mapped to
`none`. -/
def substrIdx (pat : List Nat) : List Nat → Option Nat
  | [] => if startsWith pat [] then some 0 else none
  | x :: xs =>
      if startsWith pat (x :: xs) then some 0
      else (substrIdx pat xs).map (fun i => i + 1)

/-- Python's `pat in s` for a contiguous byte pattern. -/
def containsSub (pat s : List Nat) : Bool := (substrIdx pat s).isSome

/-- Python's `s.endswith(pat)`. -/
def endsWith (pat s : List Nat) : Bool := startsWith pat.reverse s.reverse

/-- One execution of the `while True` accumulation loop of
`TinySA.getSerialReturn` (lines 50-73).  Each list element of the first
argument is the byte chunk one `self.ser.read(self.ser.in_waiting)` returns;
`buf` is the accumulated local `buffer`.  Per iteration the code appends the
chunk and evaluates, inside `try`,
`complete = buffer[:buffer.index(b'>')+1]` and then
`buffer = buffer[buffer.index(b'ch>')+1:]`; a `ValueError` from either
`index` call hits `continue`, so the loop breaks exactly when both patterns
occur.  The result is the pair (`complete` and the final local `buffer`, or
`none` when the loop never breaks) together with the chunks left unread. -/
def readLoop : List (List Nat) → List Nat →
    Option (List Nat × List Nat) × List (List Nat)
  | [], _ => (none, [])
  | c :: cs, buf =>
      match substrIdx [62] (buf ++ c), substrIdx [99, 104, 62] (buf ++ c) with
      | some i, some j =>
          (some ((buf ++ c).take (i + 1), (buf ++ c).drop (j + 1)), cs)
      | _, _ => readLoop cs (buf ++ c)

/-- `TinySA.getSerialReturn`: starts from an empty local `buffer`
(`buffer = bytes()`, line 54) and returns `bytearray(complete)`.  The final
value of the local `buffer` (the would-be pipelined remainder) is not part of
the Python return value. -/
def getSerialReturn (chunks : List (List Nat)) : Option (List Nat) :=
  ((readLoop chunks []).1).map (fun p => p.1)

/-- The chunks of the serial stream a subsequent `getSerialReturn` call would
read: those the breaking iteration left unconsumed. -/
def serialRemaining (chunks : List (List Nat)) : List (List Nat) :=
  (readLoop chunks []).2

/-- `TinySA.cleanReturn` (lines 75-86): drop everything up to and including
the first CRLF (`data.find` then `data[first_newline_index + 2:]`), then, if
the data ends with the prompt token, remove the last FOUR bytes
(`data[:-4]`, line 85).  `List.take (length - 4)` with truncated subtraction
matches Python's clamped negative-stop slicing. -/
def cleanReturn (data : List Nat) : List Nat :=
  let d := match substrIdx [13, 10] data with
           | some i => data.drop (i + 2)
           | none => data
  if endsWith [99, 104, 62] d then d.take (d.length - 4) else d

/-- Normalizer as the specification words it: strip the echo line through the
first CRLF, and strip exactly the trailing three-byte prompt token when
present.  Modelled from the spec for comparison with `cleanReturn`. -/
def cleanReturnSpec (data : List Nat) : List Nat :=
  let d := match substrIdx [13, 10] data with
           | some i => data.drop (i + 2)
           | none => data
  if endsWith [99, 104, 62] d then d.take (d.length - 3) else d

/-- `TinySA.tinySASerial` restricted to its read side: receive one frame and
normalize it.  The write side (the wire string) is carried by `CmdOutcome`
below. -/
def tinySASerial (chunks : List (List Nat)) : Option (List Nat) :=
  (getSerialReturn chunks).map (fun b => cleanReturn b)

/-- Python argument values the command methods receive: a string, an int, or
`None`. -/
inductive PyVal where
  | str : String → PyVal
  | int : Int → PyVal
  | none : PyVal
deriving DecidableEq

/-- Python's `str(val)` for the values above. -/
def pyStr : PyVal → String
  | PyVal.str s => s
  | PyVal.int n => toString n
  | PyVal.none => "None"

/-- Outcome of one command method: `send w` means the method writes exactly
the wire string `w` to the serial handle and then performs the framed read;
`reject b` means validation failed, nothing touches the transport, and the
method returns the bytearray `b`. -/
inductive CmdOutcome where
  | send : String → CmdOutcome
  | reject : List Nat → CmdOutcome
deriving DecidableEq

/-- The byte strings a command outcome writes to the transport. -/
def writesOf : CmdOutcome → List String
  | CmdOutcome.send w => [w]
  | CmdOutcome.reject _ => []

/-- `np.arange(lo, hi, 1)` over integers: `lo, lo+1, ..., hi-1` (max
exclusive). -/
def npArange (lo hi : Int) : List Int :=
  (List.range (hi - lo).toNat).map (fun k : Nat => lo + (k : Int))

/-- Acceptance test of `TinySA.agc`: `val == "auto" or val in
np.arange(0, 8, 1)`. -/
def agcAccepts : PyVal → Bool
  | PyVal.str s => decide (s = "auto")
  | PyVal.int n => decide (n ∈ npArange 0 8)
  | PyVal.none => false

/-- `TinySA.agc` (lines 101-115): note the rejection value `bytearray(b'ERROR')`. -/
def agc (val : PyVal) : CmdOutcome :=
  if agcAccepts val then CmdOutcome.send ("agc " ++ pyStr val ++ "\r\n")
  else CmdOutcome.reject [69, 82, 82, 79, 82]

/-- Acceptance test of `TinySA.attenuate`: `val == "auto" or val in
np.arange(0, 31, 1)` — the arange is max-exclusive, so the ints accepted are
0..30. -/
def attenuateAccepts : PyVal → Bool
  | PyVal.str s => decide (s = "auto")
  | PyVal.int n => decide (n ∈ npArange 0 31)
  | PyVal.none => false

/-- `TinySA.attenuate` (lines 117-131). -/
def attenuate (val : PyVal) : CmdOutcome :=
  if attenuateAccepts val then
    CmdOutcome.send ("attenuate " ++ pyStr val ++ "\r\n")
  else CmdOutcome.reject []

/-- Acceptance test of `TinySA.caloutput`: `val in ["off",1,2,3,4,10,15,30]`. -/
def caloutputAccepts : PyVal → Bool
  | PyVal.str s => decide (s = "off")
  | PyVal.int n => decide (n ∈ ([1, 2, 3, 4, 10, 15, 30] : List Int))
  | PyVal.none => false

/-- `TinySA.caloutput` (lines 157-171). -/
def caloutput (val : PyVal) : CmdOutcome :=
  if caloutputAccepts val then
    CmdOutcome.send ("caloutput " ++ pyStr val ++ "\r\n")
  else CmdOutcome.reject []

/-- The set-branch guard of `TinySA.dac`:
`isinstance(val, int) and 0 <= val <= 4095`. -/
def dacSetAccepts : PyVal → Bool
  | PyVal.int n => decide (0 ≤ n ∧ n ≤ 4095)
  | _ => false

/-- `TinySA.dac` (lines 212-228).  The set branch formats
`'dac ' + str(id) + '\r\n'` where `id` is the Python BUILTIN function (the
parameter is named `val`), so the wire string is the constant
`dac <built-in function id>` line, independent of `val`. -/
def dac (val : PyVal) : CmdOutcome :=
  if val = PyVal.none then CmdOutcome.send "dac\r\n"
  else if dacSetAccepts val then
    CmdOutcome.send "dac <built-in function id>\r\n"
  else CmdOutcome.reject []

/-- Acceptance test of `TinySA.data`: `val in [0,1,2]`. -/
def dataAccepts : PyVal → Bool
  | PyVal.int n => decide (n ∈ ([0, 1, 2] : List Int))
  | _ => false

/-- `TinySA.data` (lines 230-245). -/
def data (val : PyVal) : CmdOutcome :=
  if dataAccepts val then CmdOutcome.send ("data " ++ pyStr val ++ "\r\n")
  else CmdOutcome.reject []

/-- The set-branch guard of `TinySA.deviceid`: `isinstance(id, int)`. -/
def deviceidAccepts : PyVal → Bool
  | PyVal.int _ => true
  | _ => false

/-- `TinySA.deviceid` (lines 247-263); here the parameter really is named
`id`, so the wire string uses the argument. -/
def deviceid (val : PyVal) : CmdOutcome :=
  if val = PyVal.none then CmdOutcome.send "deviceid\r\n"
  else if deviceidAccepts val then
    CmdOutcome.send ("deviceid " ++ pyStr val ++ "\r\n")
  else CmdOutcome.reject []

/-- Guard of `TinySA.ext_gain`: `isinstance(val, int) and -100 <= val <= 100`. -/
def extGainAccepts : PyVal → Bool
  | PyVal.int n => decide (-100 ≤ n ∧ n ≤ 100)
  | _ => false

/-- `TinySA.ext_gain` (lines 273-286). -/
def ext_gain (val : PyVal) : CmdOutcome :=
  if extGainAccepts val then
    CmdOutcome.send ("ext_gain " ++ pyStr val ++ "\r\n")
  else CmdOutcome.reject []

/-- Guard of `TinySA.freq`:
`isinstance(val, int) and 100*10**3 <= val <= 53*10**8`. -/
def freqAccepts : PyVal → Bool
  | PyVal.int n => decide (100000 ≤ n ∧ n ≤ 5300000000)
  | _ => false

/-- `TinySA.freq` (lines 298-313). -/
def freq (val : PyVal) : CmdOutcome :=
  if freqAccepts val then CmdOutcome.send ("freq " ++ pyStr val ++ "\r\n")
  else CmdOutcome.reject []

/-- Guard of `TinySA.setIF`: `val == 0 or 433*10**6 <= val <= 435*10**6`.
The Python code compares with `<=` and no isinstance check, so it is modelled
over ints (a non-int argument would raise a `TypeError` there). -/
def setIFAccepts (val : Int) : Bool :=
  decide (val = 0 ∨ (433000000 ≤ val ∧ val ≤ 435000000))

/-- `TinySA.setIF` (lines 363-376). -/
def setIF (val : Int) : CmdOutcome :=
  if setIFAccepts val then
    CmdOutcome.send ("if " ++ toString val ++ "\r\n")
  else CmdOutcome.reject []

/-- Guard of `TinySA.if1`: `val == 0 or 975*10**6 <= val <= 979*10**6`. -/
def if1Accepts (val : Int) : Bool :=
  decide (val = 0 ∨ (975000000 ≤ val ∧ val ≤ 979000000))

/-- `TinySA.if1` (lines 378-390). -/
def if1 (val : Int) : CmdOutcome :=
  if if1Accepts val then
    CmdOutcome.send ("if1 " ++ toString val ++ "\r\n")
  else CmdOutcome.reject []

/-- Guard of `TinySA.levelchange`: `val in np.arange(-70, 71, 1)`. -/
def levelchangeAccepts : PyVal → Bool
  | PyVal.int n => decide (n ∈ npArange (-70) 71)
  | _ => false

/-- `TinySA.levelchange` (lines 429-443). -/
def levelchange (val : PyVal) : CmdOutcome :=
  if levelchangeAccepts val then
    CmdOutcome.send ("levelchange " ++ pyStr val ++ "\r\n")
  else CmdOutcome.reject []

/-- Guard of `TinySA.load`: `val in [0,1,2,3,4]`. -/
def loadAccepts : PyVal → Bool
  | PyVal.int n => decide (n ∈ ([0, 1, 2, 3, 4] : List Int))
  | _ => false

/-- `TinySA.load` (lines 469-483). -/
def load (val : PyVal) : CmdOutcome :=
  if loadAccepts val then CmdOutcome.send ("load " ++ pyStr val ++ "\r\n")
  else CmdOutcome.reject []

/-- Guard of `TinySA.lna`: `val in ["on", "off"]`. -/
def lnaAccepts : PyVal → Bool
  | PyVal.str s => decide (s = "on" ∨ s = "off")
  | _ => false

/-- `TinySA.lna` (lines 485-499). -/
def lna (val : PyVal) : CmdOutcome :=
  if lnaAccepts val then CmdOutcome.send ("lna " ++ pyStr val ++ "\r\n")
  else CmdOutcome.reject []

/-- Guard of `TinySA.lna2`: `val == "auto" or val in [0,...,7]`. -/
def lna2Accepts : PyVal → Bool
  | PyVal.str s => decide (s = "auto")
  | PyVal.int n => decide (n ∈ ([0, 1, 2, 3, 4, 5, 6, 7] : List Int))
  | PyVal.none => false

/-- `TinySA.lna2` (lines 501-515). -/
def lna2 (val : PyVal) : CmdOutcome :=
  if lna2Accepts val then CmdOutcome.send ("lna2 " ++ pyStr val ++ "\r\n")
  else CmdOutcome.reject []

/-- Guard of `TinySA.output`: `val in ["on", "off"]`. -/
def outputAccepts : PyVal → Bool
  | PyVal.str s => decide (s = "on" ∨ s = "off")
  | _ => false

/-- `TinySA.output` (lines 561-575). -/
def output (val : PyVal) : CmdOutcome :=
  if outputAccepts val then CmdOutcome.send ("output " ++ pyStr val ++ "\r\n")
  else CmdOutcome.reject []

/-- Guard of `TinySA.rbw`: `val == "auto"`, or
`isinstance(val, int) and 3*10**3 <= val <= 600*10**3`; both accepting
branches format the same `'rbw ' + str(val)` wire string. -/
def rbwAccepts : PyVal → Bool
  | PyVal.str s => decide (s = "auto")
  | PyVal.int n => decide (3000 ≤ n ∧ n ≤ 600000)
  | PyVal.none => false

/-- `TinySA.rbw` (lines 586-602). -/
def rbw (val : PyVal) : CmdOutcome :=
  if rbwAccepts val then CmdOutcome.send ("rbw " ++ pyStr val ++ "\r\n")
  else CmdOutcome.reject []

/-- Guard of `TinySA.recall`: `val in [0,1,2,3,4]`. -/
def recallAccepts : PyVal → Bool
  | PyVal.int n => decide (n ∈ ([0, 1, 2, 3, 4] : List Int))
  | _ => false

/-- `TinySA.recall` (lines 604-618); the guillemets dodge the `recall`
command keyword. -/
def «recall» (val : PyVal) : CmdOutcome :=
  if recallAccepts val then CmdOutcome.send ("recall " ++ pyStr val ++ "\r\n")
  else CmdOutcome.reject []

/-- Guard of `TinySA.refresh`: `val in ["on", "off"]`. -/
def refreshAccepts : PyVal → Bool
  | PyVal.str s => decide (s = "on" ∨ s = "off")
  | _ => false

/-- `TinySA.refresh` (lines 620-634). -/
def refresh (val : PyVal) : CmdOutcome :=
  if refreshAccepts val then
    CmdOutcome.send ("refresh " ++ pyStr val ++ "\r\n")
  else CmdOutcome.reject []

/-- Guard of `TinySA.save`: `val in [0,1,2,3,4]`. -/
def saveAccepts : PyVal → Bool
  | PyVal.int n => decide (n ∈ ([0, 1, 2, 3, 4] : List Int))
  | _ => false

/-- `TinySA.save` (lines 672-686). -/
def save (val : PyVal) : CmdOutcome :=
  if saveAccepts val then CmdOutcome.send ("save " ++ pyStr val ++ "\r\n")
  else CmdOutcome.reject []

/-- Guard of `TinySA.selftest`: `val in [0,...,9]`. -/
def selftestAccepts : PyVal → Bool
  | PyVal.int n => decide (n ∈ ([0, 1, 2, 3, 4, 5, 6, 7, 8, 9] : List Int))
  | _ => false

/-- `TinySA.selftest` (lines 745-762). -/
def selftest (val : PyVal) : CmdOutcome :=
  if selftestAccepts val then
    CmdOutcome.send ("selftest " ++ pyStr val ++ "\r\n")
  else CmdOutcome.reject []

/-- Guard of `TinySA.spur`: `val in ["on", "off"]`. -/
def spurAccepts : PyVal → Bool
  | PyVal.str s => decide (s = "on" ∨ s = "off")
  | _ => false

/-- `TinySA.spur` (lines 764-778). -/
def spur (val : PyVal) : CmdOutcome :=
  if spurAccepts val then CmdOutcome.send ("spur " ++ pyStr val ++ "\r\n")
  else CmdOutcome.reject []

/-- The set-branch guard of `TinySA.vbat_offset`:
`isinstance(val, int) and 0 <= val <= 4095`. -/
def vbatOffsetSetAccepts : PyVal → Bool
  | PyVal.int n => decide (0 ≤ n ∧ n ≤ 4095)
  | _ => false

/-- `TinySA.vbat_offset` (lines 903-919).  Like `dac`, the set branch formats
`'vbat_offset ' + str(id)` with `id` the Python builtin, not the argument. -/
def vbat_offset (val : PyVal) : CmdOutcome :=
  if val = PyVal.none then CmdOutcome.send "vbat_offset\r\n"
  else if vbatOffsetSetAccepts val then
    CmdOutcome.send "vbat_offset <built-in function id>\r\n"
  else CmdOutcome.reject []

/-- `TinySA.version` (lines 921-928): no argument, writes `version\r\n`. -/
def version : CmdOutcome := CmdOutcome.send "version\r\n"

/-- The documented argument domain of `attenuate` per its usage line
`attenuate [auto|0-31]` (both bounds inclusive as written). -/
def attenuateDocDomain : PyVal → Bool
  | PyVal.str s => decide (s = "auto")
  | PyVal.int n => decide (0 ≤ n ∧ n ≤ 31)
  | PyVal.none => false

/-- The documented argument domain of `lna` per its usage line `lna off|on`. -/
def lnaDocDomain : PyVal → Bool
  | PyVal.str s => decide (s = "on" ∨ s = "off")
  | _ => false

/-- The documented argument domain of `rbw` per its usage line
`rbw auto|3..600` (the number being "the target rbw in kHz", as its own
error message `[auto |0 - 600] in kHz` also reads). -/
def rbwDocDomain : PyVal → Bool
  | PyVal.str s => decide (s = "auto")
  | PyVal.int n => decide (3 ≤ n ∧ n ≤ 600)
  | PyVal.none => false

/-- The documented argument domain of `if1` per its usage line
`if1 975M..979M` (in Hz). -/
def if1DocDomain (n : Int) : Bool :=
  decide (975000000 ≤ n ∧ n ≤ 979000000)

/-- The device reply `version\r\n1.2.3\r\nch>` of the specification's
round-trip scenario, as bytes. -/
def versionReply : List Nat :=
  [118, 101, 114, 115, 105, 111, 110, 13, 10,
   49, 46, 50, 46, 51, 13, 10, 99, 104, 62]

/-- First pipelined reply `a\r\nA\r\nch>` of the back-to-back scenario. -/
def pipelinedReply1 : List Nat := [97, 13, 10, 65, 13, 10, 99, 104, 62]

/-- Second pipelined reply `b\r\nB\r\nch>` of the back-to-back scenario. -/
def pipelinedReply2 : List Nat := [98, 13, 10, 66, 13, 10, 99, 104, 62]

/-- A legitimate full device frame for `output on` with an empty payload:
`output on\r\nch>`. -/
def outputSuccessFrame : List Nat :=
  [111, 117, 116, 112, 117, 116, 32, 111, 110, 13, 10, 99, 104, 62]

/-! ## Helper lemmas about the byte-scanning primitives -/

theorem startsWith_nil (s : List Nat) : startsWith [] s = true := by
  cases s <;> rfl

theorem substrIdx_some_startsWith (pat : List Nat) :
    ∀ (s : List Nat) (i : Nat), substrIdx pat s = some i →
      startsWith pat (s.drop i) = true := by
  intro s
  induction s with
  | nil =>
    intro i h
    simp only [substrIdx] at h
    split at h
    · rename_i hc
      cases h
      simpa using hc
    · cases h
  | cons x xs ih =>
    intro i h
    simp only [substrIdx] at h
    split at h
    · rename_i hc
      cases h
      simpa using hc
    · rcases Option.map_eq_some'.mp h with ⟨i', hi', rfl⟩
      simpa using ih i' hi'

theorem substrIdx_single_getLast (a : Nat) :
    ∀ (s : List Nat) (i : Nat), substrIdx [a] s = some i →
      (s.take (i + 1)).getLast? = some a := by
  intro s
  induction s with
  | nil =>
    intro i h
    simp [substrIdx, startsWith] at h
  | cons x xs ih =>
    intro i h
    simp only [substrIdx] at h
    split at h
    · rename_i hc
      cases h
      have hax : a = x := by
        simpa [startsWith, startsWith_nil] using hc
      simp [hax]
    · rcases Option.map_eq_some'.mp h with ⟨i', hi', rfl⟩
      have h2 := ih i' hi'
      rw [List.take_succ_cons]
      rcases he : xs.take (i' + 1) with _ | ⟨y, ys⟩
      · rw [he] at h2; simp at h2
      · rw [he] at h2
        rw [List.getLast?_cons_cons]
        exact h2

theorem substrIdx_single_isSome_of_mem (a : Nat) :
    ∀ s : List Nat, a ∈ s → (substrIdx [a] s).isSome = true := by
  intro s
  induction s with
  | nil => intro h; cases h
  | cons x xs ih =>
    intro h
    simp only [substrIdx]
    split
    · rfl
    · rename_i hc
      have hax : ¬ a = x := by
        intro he
        exact hc (by simp [startsWith, startsWith_nil, he])
      rcases List.mem_cons.mp h with he | hm
      · exact absurd he hax
      · have := ih hm
        cases hs : substrIdx [a] xs with
        | none => rw [hs] at this; simp at this
        | some k => rfl

theorem mem_of_substrIdx_prompt (s : List Nat) (j : Nat)
    (h : substrIdx [99, 104, 62] s = some j) : 62 ∈ s := by
  have h1 := substrIdx_some_startsWith [99, 104, 62] s j h
  have h2 : 62 ∈ s.drop j := by
    rcases hd : s.drop j with _ | ⟨x, t⟩
    · rw [hd] at h1; simp [startsWith] at h1
    · rcases t with _ | ⟨y, t2⟩
      · rw [hd] at h1; simp [startsWith] at h1
      · rcases t2 with _ | ⟨z, t3⟩
        · rw [hd] at h1; simp [startsWith, startsWith_nil] at h1
        · rw [hd] at h1
          simp [startsWith, startsWith_nil] at h1
          obtain ⟨hx, hy, hz⟩ := h1
          subst hz
          simp
  have h3 := List.take_append_drop j s
  rw [← h3]
  exact List.mem_append_right _ h2

theorem containsSub_cons (pat : List Nat) (x : Nat) (t : List Nat) :
    containsSub pat (x :: t) = (startsWith pat (x :: t) || containsSub pat t) := by
  unfold containsSub
  simp only [substrIdx]
  split
  · rename_i hc
    rw [hc]
    rfl
  · rename_i hc
    rw [Bool.not_eq_true] at hc
    rw [hc]
    cases substrIdx pat t <;> simp

theorem substrIdx_crlf_append (u v : List Nat) :
    containsSub [13, 10] u = false →
      substrIdx [13, 10] (u ++ [13, 10] ++ v) = some u.length := by
  induction u with
  | nil =>
    intro _
    simp [substrIdx, startsWith]
  | cons a u' ih =>
    intro h
    rw [containsSub_cons] at h
    rw [Bool.or_eq_false_iff] at h
    obtain ⟨h1, h2⟩ := h
    have hsw : startsWith [13, 10] ((a :: u') ++ [13, 10] ++ v) = false := by
      rcases u' with _ | ⟨b, u''⟩
      · simp [startsWith]
      · simp only [List.cons_append, startsWith, startsWith_nil,
          Bool.and_true] at h1 ⊢
        exact h1
    simp only [List.cons_append] at hsw ⊢
    simp only [substrIdx]
    rw [if_neg (by rw [hsw]; exact Bool.false_ne_true)]
    rw [ih h2]
    rfl

theorem cleanReturn_of_no_markers (x : List Nat)
    (h1 : containsSub [13, 10] x = false)
    (h2 : endsWith [99, 104, 62] x = false) : cleanReturn x = x := by
  have hnone : substrIdx [13, 10] x = none := by
    unfold containsSub at h1
    cases hs : substrIdx [13, 10] x
    · rfl
    · rw [hs] at h1; simp at h1
  simp [cleanReturn, hnone, h2]

theorem readLoop_cons_break (cs : List (List Nat)) (c buf : List Nat) (i j : Nat)
    (h62 : substrIdx [62] (buf ++ c) = some i)
    (hch : substrIdx [99, 104, 62] (buf ++ c) = some j) :
    readLoop (c :: cs) buf =
      (some ((buf ++ c).take (i + 1), (buf ++ c).drop (j + 1)), cs) := by
  simp [readLoop, h62, hch]

theorem readLoop_cons_skip (cs : List (List Nat)) (c buf : List Nat)
    (hch : substrIdx [99, 104, 62] (buf ++ c) = none) :
    readLoop (c :: cs) buf = readLoop cs (buf ++ c) := by
  cases h62 : substrIdx [62] (buf ++ c) <;> simp [readLoop, h62, hch]

theorem mem_npArange (lo hi n : Int) : n ∈ npArange lo hi ↔ lo ≤ n ∧ n < hi := by
  unfold npArange
  constructor
  · intro hmem
    obtain ⟨k, hk, he⟩ := List.mem_map.mp hmem
    rw [List.mem_range, Int.lt_toNat] at hk
    omega
  · intro h
    apply List.mem_map.mpr
    refine ⟨(n - lo).toNat, ?_, ?_⟩
    · rw [List.mem_range, Int.lt_toNat, Int.toNat_of_nonneg (by omega)]
      omega
    · rw [Int.toNat_of_nonneg (by omega)]
      omega

theorem readLoop_versionReply :
    ∀ (cs : List (List Nat)) (buf : List Nat),
      buf ++ cs.flatten = versionReply →
      containsSub [99, 104, 62] buf = false →
      (readLoop cs buf).1 = some (versionReply, [104, 62]) := by
  intro cs
  induction cs with
  | nil =>
    intro buf hj hc
    simp at hj
    subst hj
    have : containsSub [99, 104, 62] versionReply = true := by decide
    rw [this] at hc
    cases hc
  | cons c cs' ih =>
    intro buf hj hc
    by_cases hb : containsSub [99, 104, 62] (buf ++ c) = true
    · have hjoin : (buf ++ c) ++ cs'.flatten = versionReply := by
        simpa [List.append_assoc] using hj
      have hvl : versionReply.length = 19 := by rfl
      have hlen : (buf ++ c).length ≤ 19 := by
        have hcon := congrArg List.length hjoin
        rw [List.length_append, hvl] at hcon
        omega
      have htake : versionReply.take (buf ++ c).length = buf ++ c := by
        rw [← hjoin]
        exact List.take_left _ _
      have hk : ∀ k : Nat, k ≤ 19 →
          containsSub [99, 104, 62] (versionReply.take k) = true → k = 19 := by
        decide
      have h19 : (buf ++ c).length = 19 := by
        apply hk _ hlen
        rw [htake]
        exact hb
      have hbv : buf ++ c = versionReply := by
        rw [← htake, h19]
        decide
      have h62 : substrIdx [62] (buf ++ c) = some 18 := by rw [hbv]; decide
      have hch : substrIdx [99, 104, 62] (buf ++ c) = some 16 := by
        rw [hbv]; decide
      rw [readLoop_cons_break cs' c buf 18 16 h62 hch, hbv]
      show some (versionReply.take 19, versionReply.drop 17) =
        some (versionReply, [104, 62])
      decide
    · have hch : substrIdx [99, 104, 62] (buf ++ c) = none := by
        unfold containsSub at hb
        cases hs : substrIdx [99, 104, 62] (buf ++ c)
        · rfl
        · rw [hs] at hb; simp at hb
      rw [readLoop_cons_skip cs' c buf hch]
      apply ih
      · simpa [List.append_assoc] using hj
      · unfold containsSub
        rw [hch]
        rfl

/-! ## Claim theorems -/

/-- C1 (code bug, evaluated at the failing input): when two back-to-back
replies arrive concatenated in one physical read, `getSerialReturn` returns
the first frame, but the retained remainder exists only as the final value of
the call's local buffer — and even that local value is sliced at
`index(b'ch>') + 1`, so it still begins with the two prompt bytes `h>` of the
frame just returned instead of beginning where the frame ended.  The next
call re-initialises `buffer = bytes()` and reads from the now-empty stream,
so it never returns the second reply's frame. -/
theorem pipelined_remainder_lost :
    getSerialReturn [pipelinedReply1 ++ pipelinedReply2] = some pipelinedReply1 ∧
      (readLoop [pipelinedReply1 ++ pipelinedReply2] []).1 =
        some (pipelinedReply1, [104, 62] ++ pipelinedReply2) ∧
      ([104, 62] ++ pipelinedReply2 : List Nat) ≠ pipelinedReply2 ∧
      serialRemaining [pipelinedReply1 ++ pipelinedReply2] = [] ∧
      getSerialReturn (serialRemaining [pipelinedReply1 ++ pipelinedReply2]) =
        none := by
  decide

/-- C2 counterexample: after a single read delivering `hi>` the accumulated
buffer contains the delimiter byte `>` yet `getSerialReturn` does not stop
and return the frame — it keeps looping (modelled by `none` once no further
bytes arrive), because the break also requires the token `ch>`. -/
theorem gt_alone_does_not_stop :
    containsSub [62] [104, 105, 62] = true ∧
      getSerialReturn [[104, 105, 62]] = none := by
  decide

/-- C2 amended: the receive loop stops as soon as the accumulated buffer
contains the full prompt token `ch>` (not merely the byte `>`); the frame
returned is the buffer up to and including the first `>` byte, so every
returned frame's last byte is `>`; while the token is absent the loop
continues rather than erroring. -/
theorem getSerialReturn_prompt_stop (cs : List (List Nat)) (buf c : List Nat) :
    match substrIdx [99, 104, 62] (buf ++ c) with
    | some j => ∃ i, substrIdx [62] (buf ++ c) = some i ∧
        readLoop (c :: cs) buf =
          (some ((buf ++ c).take (i + 1), (buf ++ c).drop (j + 1)), cs) ∧
        ((buf ++ c).take (i + 1)).getLast? = some 62
    | none => readLoop (c :: cs) buf = readLoop cs (buf ++ c) := by
  cases hch : substrIdx [99, 104, 62] (buf ++ c) with
  | none => exact readLoop_cons_skip cs c buf hch
  | some j =>
    have hm : 62 ∈ buf ++ c := mem_of_substrIdx_prompt _ j hch
    have hs : (substrIdx [62] (buf ++ c)).isSome = true :=
      substrIdx_single_isSome_of_mem 62 _ hm
    rcases ho : substrIdx [62] (buf ++ c) with _ | i
    · rw [ho] at hs
      simp at hs
    · exact ⟨i, rfl, readLoop_cons_break cs c buf i j ho hch,
        substrIdx_single_getLast 62 _ i ho⟩

/-- C3 counterexample: on the frame `A\r\nBch>` the code removes FOUR
trailing bytes (`data[:-4]`, eating the byte before the prompt token as
well), returning empty, while stripping exactly the three-byte token `ch>`
as the claim states would return `B`. -/
theorem cleanReturn_three_byte_counterexample :
    cleanReturn [65, 13, 10, 66, 99, 104, 62] = [] ∧
      cleanReturnSpec [65, 13, 10, 66, 99, 104, 62] = [66] ∧
      cleanReturn [65, 13, 10, 66, 99, 104, 62] ≠
        cleanReturnSpec [65, 13, 10, 66, 99, 104, 62] := by
  decide

/-- C3 amended: `cleanReturn` removes everything up to and including the
first CRLF; when what remains ends with the prompt token `ch>` it removes the
last FOUR bytes (the three-byte token plus the byte immediately before it);
when the line break or the token is absent, that end of the buffer is
returned unchanged. -/
theorem cleanReturn_amended (u v x : List Nat) :
    (containsSub [13, 10] u = false →
      cleanReturn (u ++ [13, 10] ++ v) =
        (if endsWith [99, 104, 62] v then v.take (v.length - 4) else v)) ∧
    (containsSub [13, 10] x = false →
      cleanReturn x =
        (if endsWith [99, 104, 62] x then x.take (x.length - 4) else x)) := by
  constructor
  · intro h
    have hidx := substrIdx_crlf_append u v h
    have h2 : (u ++ [13, 10]).length = u.length + 2 := by simp
    have hdrop : (u ++ [13, 10] ++ v).drop (u.length + 2) = v := by
      rw [← h2]
      exact List.drop_left _ _
    simp only [cleanReturn, hidx, hdrop]
  · intro h
    have hnone : substrIdx [13, 10] x = none := by
      unfold containsSub at h
      cases hs : substrIdx [13, 10] x
      · rfl
      · rw [hs] at h; simp at h
    simp only [cleanReturn, hnone]

/-- Witness for the amended C3 at a concrete frame. -/
theorem cleanReturn_amended_witness :
    containsSub [13, 10] [65] = false ∧
      cleanReturn ([65] ++ [13, 10] ++ [66, 99, 104, 62]) =
        (if endsWith [99, 104, 62] [66, 99, 104, 62] then
          ([66, 99, 104, 62] : List Nat).take
            (([66, 99, 104, 62] : List Nat).length - 4)
        else [66, 99, 104, 62]) :=
  ⟨by decide, (cleanReturn_amended [65] [66, 99, 104, 62] [88]).1 (by decide)⟩

/-- C4: for every fragmentation of the reply `version\r\n1.2.3\r\nch>` into
read chunks, the version command writes `version\r\n` and receive followed by
normalize yields exactly the payload `1.2.3\r`. -/
theorem version_roundtrip (chunks : List (List Nat))
    (h : chunks.flatten = versionReply) :
    version = CmdOutcome.send "version\r\n" ∧
      tinySASerial chunks = some [49, 46, 50, 46, 51, 13] := by
  constructor
  · rfl
  · have h0 := readLoop_versionReply chunks [] (by simpa using h) (by decide)
    unfold tinySASerial getSerialReturn
    rw [h0]
    decide

/-- Witness for C4 at the three-chunk fragmentation of the scenario. -/
theorem version_roundtrip_witness :
    ([[118, 101, 114, 115, 105, 111, 110], [13, 10, 49, 46, 50, 46, 51],
        [13, 10, 99, 104, 62]] : List (List Nat)).flatten = versionReply ∧
      (version = CmdOutcome.send "version\r\n" ∧
        tinySASerial [[118, 101, 114, 115, 105, 111, 110],
          [13, 10, 49, 46, 50, 46, 51], [13, 10, 99, 104, 62]] =
          some [49, 46, 50, 46, 51, 13]) :=
  ⟨by decide, version_roundtrip _ (by decide)⟩

/-- C5 counterexample: validation before I/O does not hold for EVERY command
with a documented argument domain.  `rbw(5000)` lies outside the documented
domain `rbw auto|3..600` (kHz), yet the guard `3*10**3 <= val <= 600*10**3`
accepts it and the command writes `rbw 5000\r\n` to the transport; likewise
`if1(0)` lies outside the documented `975M..979M` yet is accepted and
written. -/
theorem rbw_out_of_domain_writes :
    rbwDocDomain (PyVal.int 5000) = false ∧
      rbw (PyVal.int 5000) = CmdOutcome.send "rbw 5000\r\n" ∧
      writesOf (rbw (PyVal.int 5000)) = ["rbw 5000\r\n"] ∧
      if1DocDomain 0 = false ∧
      if1 0 = CmdOutcome.send "if1 0\r\n" := by
  decide

/-- C5 amended: for `attenuate` (usage `attenuate [auto|0-31]`) and `lna`
(usage `lna off|on`) — the commands the claim cites, whose accepted sets are
subsets of their documented domains — every argument outside the documented
domain performs no transport interaction at all: nothing is written (and
hence no read is started) before the rejection value is returned.  This does
not extend to every command: see the `rbw` and `if1` counterexample above. -/
theorem out_of_domain_no_write (v : PyVal) :
    (attenuateDocDomain v = false → writesOf (attenuate v) = []) ∧
    (lnaDocDomain v = false → writesOf (lna v) = []) := by
  constructor
  · intro h
    have hacc : attenuateAccepts v = false := by
      cases v with
      | str s => simpa [attenuateAccepts, attenuateDocDomain] using h
      | int n =>
        simp only [attenuateDocDomain, decide_eq_false_iff_not] at h
        simp only [attenuateAccepts, decide_eq_false_iff_not, mem_npArange]
        omega
      | none => rfl
    simp [attenuate, hacc, writesOf]
  · intro h
    have hacc : lnaAccepts v = false := by
      cases v with
      | str s => simpa [lnaAccepts, lnaDocDomain] using h
      | int n => rfl
      | none => rfl
    simp [lna, hacc, writesOf]

/-- Witness for C5 at the out-of-domain argument 99. -/
theorem out_of_domain_no_write_witness :
    attenuateDocDomain (PyVal.int 99) = false ∧
      lnaDocDomain (PyVal.int 99) = false ∧
      writesOf (attenuate (PyVal.int 99)) = [] ∧
      writesOf (lna (PyVal.int 99)) = [] :=
  ⟨by decide, by decide,
    (out_of_domain_no_write (PyVal.int 99)).1 (by decide),
    (out_of_domain_no_write (PyVal.int 99)).2 (by decide)⟩

/-- C6 counterexample: `output` rejects a bad argument with the empty
bytearray, which is byte-for-byte identical to the payload a legitimate
empty-reply frame (`output on\r\nch>`) normalizes to — so the rejection value
is not distinguishable from a legitimate device reply. -/
theorem rejection_empty_counterexample :
    output (PyVal.str "bogus") = CmdOutcome.reject [] ∧
      cleanReturn outputSuccessFrame = [] ∧
      output (PyVal.str "bogus") =
        CmdOutcome.reject (cleanReturn outputSuccessFrame) := by
  decide

/-- C6 amended: only `agc` rejects with a value (`b'ERROR'`) distinguishable
from the legitimate empty payload; `attenuate` and `output` (like the other
validating commands) reject with the empty bytearray, equal to the payload of
a legitimate empty reply, so for them a caller cannot tell rejection apart
from an empty device reply by the returned value. -/
theorem rejection_values_amended (v : PyVal) :
    (attenuateAccepts v = false →
      attenuate v = CmdOutcome.reject (cleanReturn outputSuccessFrame)) ∧
    (outputAccepts v = false →
      output v = CmdOutcome.reject (cleanReturn outputSuccessFrame)) ∧
    (agcAccepts v = false →
      agc v = CmdOutcome.reject [69, 82, 82, 79, 82] ∧
        ([69, 82, 82, 79, 82] : List Nat) ≠ cleanReturn outputSuccessFrame) := by
  refine ⟨fun h => ?_, fun h => ?_, fun h => ⟨by simp [agc, h], by decide⟩⟩
  · have ha : attenuate v = CmdOutcome.reject [] := by simp [attenuate, h]
    rw [ha]
    decide
  · have ho : output v = CmdOutcome.reject [] := by simp [output, h]
    rw [ho]
    decide

/-- Witness for the amended C6. -/
theorem rejection_values_amended_witness :
    attenuateAccepts (PyVal.str "bad") = false ∧
      attenuate (PyVal.str "bad") =
        CmdOutcome.reject (cleanReturn outputSuccessFrame) ∧
      agc (PyVal.str "bad") = CmdOutcome.reject [69, 82, 82, 79, 82] :=
  ⟨by decide,
    (rejection_values_amended (PyVal.str "bad")).1 (by decide),
    ((rejection_values_amended (PyVal.str "bad")).2.2 (by decide)).1⟩

/-- C7 (code bug, evaluated at the boundaries): the documented domain of
`attenuate` is `[auto|0-31]`, and the scenario values behave as claimed
(15 formats `attenuate 15\r\n`, 99 is rejected with no write), but the upper
boundary 31 is REJECTED because `np.arange(0, 31, 1)` is max-exclusive — the
accepted ints are 0..30, contradicting the command's own usage line and
error message. -/
theorem attenuate_boundary :
    attenuate (PyVal.int 0) = CmdOutcome.send "attenuate 0\r\n" ∧
      attenuate (PyVal.int 30) = CmdOutcome.send "attenuate 30\r\n" ∧
      attenuate (PyVal.int 31) = CmdOutcome.reject [] ∧
      attenuate (PyVal.int (-1)) = CmdOutcome.reject [] ∧
      attenuate (PyVal.int 32) = CmdOutcome.reject [] ∧
      attenuate (PyVal.int 15) = CmdOutcome.send "attenuate 15\r\n" ∧
      attenuate (PyVal.str "auto") = CmdOutcome.send "attenuate auto\r\n" ∧
      attenuate (PyVal.int 99) = CmdOutcome.reject [] := by
  decide

/-- C8 (code bug, evaluated at the failing inputs): the set branches of `dac`
and `vbat_offset` format `str(id)` where `id` is the Python builtin function
(the parameter is named `val`), so the wire string is a constant
`<built-in function id>` line and NOT the documented
name-space-stringified-value template. -/
theorem dac_vbat_offset_wire :
    dac (PyVal.int 100) = CmdOutcome.send "dac <built-in function id>\r\n" ∧
      ("dac <built-in function id>\r\n" : String) ≠
        "dac " ++ pyStr (PyVal.int 100) ++ "\r\n" ∧
      vbat_offset (PyVal.int 300) =
        CmdOutcome.send "vbat_offset <built-in function id>\r\n" ∧
      ("vbat_offset <built-in function id>\r\n" : String) ≠
        "vbat_offset " ++ pyStr (PyVal.int 300) ++ "\r\n" := by
  decide

/-- C9: `cleanReturn` is idempotent on inputs with no framing markers (no
CRLF anywhere and no trailing prompt token). -/
theorem cleanReturn_idempotent (x : List Nat)
    (h1 : containsSub [13, 10] x = false)
    (h2 : endsWith [99, 104, 62] x = false) :
    cleanReturn (cleanReturn x) = cleanReturn x := by
  rw [cleanReturn_of_no_markers x h1 h2]
  exact cleanReturn_of_no_markers x h1 h2

/-- Witness for C9. -/
theorem cleanReturn_idempotent_witness :
    containsSub [13, 10] [65, 66] = false ∧
      endsWith [99, 104, 62] [65, 66] = false ∧
      cleanReturn (cleanReturn [65, 66]) = cleanReturn [65, 66] :=
  ⟨by decide, by decide, cleanReturn_idempotent [65, 66] (by decide) (by decide)⟩

/-- C10: the rejection value is not uniform across the public interface —
`agc` rejects with the five-byte sentinel `b'ERROR'`, while every other
implemented validating command rejects with the empty bytearray `b''`. -/
theorem rejection_sentinels (v : PyVal) (m : Int) :
    (agcAccepts v = false → agc v = CmdOutcome.reject [69, 82, 82, 79, 82]) ∧
      (([69, 82, 82, 79, 82] : List Nat) ≠ []) ∧
      (attenuateAccepts v = false → attenuate v = CmdOutcome.reject []) ∧
      (caloutputAccepts v = false → caloutput v = CmdOutcome.reject []) ∧
      (v ≠ PyVal.none → dacSetAccepts v = false → dac v = CmdOutcome.reject []) ∧
      (dataAccepts v = false → data v = CmdOutcome.reject []) ∧
      (v ≠ PyVal.none → deviceidAccepts v = false →
        deviceid v = CmdOutcome.reject []) ∧
      (extGainAccepts v = false → ext_gain v = CmdOutcome.reject []) ∧
      (freqAccepts v = false → freq v = CmdOutcome.reject []) ∧
      (setIFAccepts m = false → setIF m = CmdOutcome.reject []) ∧
      (if1Accepts m = false → if1 m = CmdOutcome.reject []) ∧
      (levelchangeAccepts v = false → levelchange v = CmdOutcome.reject []) ∧
      (loadAccepts v = false → load v = CmdOutcome.reject []) ∧
      (lnaAccepts v = false → lna v = CmdOutcome.reject []) ∧
      (lna2Accepts v = false → lna2 v = CmdOutcome.reject []) ∧
      (outputAccepts v = false → output v = CmdOutcome.reject []) ∧
      (rbwAccepts v = false → rbw v = CmdOutcome.reject []) ∧
      (recallAccepts v = false → «recall» v = CmdOutcome.reject []) ∧
      (refreshAccepts v = false → refresh v = CmdOutcome.reject []) ∧
      (saveAccepts v = false → save v = CmdOutcome.reject []) ∧
      (selftestAccepts v = false → selftest v = CmdOutcome.reject []) ∧
      (spurAccepts v = false → spur v = CmdOutcome.reject []) ∧
      (v ≠ PyVal.none → vbatOffsetSetAccepts v = false →
        vbat_offset v = CmdOutcome.reject []) := by
  refine ⟨fun h => by simp [agc, h], by decide,
    fun h => by simp [attenuate, h],
    fun h => by simp [caloutput, h],
    fun hn h => by simp [dac, hn, h],
    fun h => by simp [data, h],
    fun hn h => by simp [deviceid, hn, h],
    fun h => by simp [ext_gain, h],
    fun h => by simp [freq, h],
    fun h => by simp [setIF, h],
    fun h => by simp [if1, h],
    fun h => by simp [levelchange, h],
    fun h => by simp [load, h],
    fun h => by simp [lna, h],
    fun h => by simp [lna2, h],
    fun h => by simp [output, h],
    fun h => by simp [rbw, h],
    fun h => by simp [«recall», h],
    fun h => by simp [refresh, h],
    fun h => by simp [save, h],
    fun h => by simp [selftest, h],
    fun h => by simp [spur, h],
    fun hn h => by simp [vbat_offset, hn, h]⟩

/-- Witness for C10 at a rejected argument for every validating command. -/
theorem rejection_sentinels_witness :
    agc (PyVal.str "zzz") = CmdOutcome.reject [69, 82, 82, 79, 82] ∧
      attenuate (PyVal.str "zzz") = CmdOutcome.reject [] ∧
      caloutput (PyVal.str "zzz") = CmdOutcome.reject [] ∧
      dac (PyVal.str "zzz") = CmdOutcome.reject [] ∧
      data (PyVal.str "zzz") = CmdOutcome.reject [] ∧
      deviceid (PyVal.str "zzz") = CmdOutcome.reject [] ∧
      ext_gain (PyVal.str "zzz") = CmdOutcome.reject [] ∧
      freq (PyVal.str "zzz") = CmdOutcome.reject [] ∧
      setIF 7 = CmdOutcome.reject [] ∧
      if1 7 = CmdOutcome.reject [] ∧
      levelchange (PyVal.str "zzz") = CmdOutcome.reject [] ∧
      load (PyVal.str "zzz") = CmdOutcome.reject [] ∧
      lna (PyVal.str "zzz") = CmdOutcome.reject [] ∧
      lna2 (PyVal.str "zzz") = CmdOutcome.reject [] ∧
      output (PyVal.str "zzz") = CmdOutcome.reject [] ∧
      rbw (PyVal.str "zzz") = CmdOutcome.reject [] ∧
      «recall» (PyVal.str "zzz") = CmdOutcome.reject [] ∧
      refresh (PyVal.str "zzz") = CmdOutcome.reject [] ∧
      save (PyVal.str "zzz") = CmdOutcome.reject [] ∧
      selftest (PyVal.str "zzz") = CmdOutcome.reject [] ∧
      spur (PyVal.str "zzz") = CmdOutcome.reject [] ∧
      vbat_offset (PyVal.str "zzz") = CmdOutcome.reject [] := by
  obtain ⟨h1, _, h3, h4, h5, h6, h7, h8, h9, h10, h11, h12, h13, h14, h15,
    h16, h17, h18, h19, h20, h21, h22, h23⟩ :=
    rejection_sentinels (PyVal.str "zzz") 7
  exact ⟨h1 (by decide), h3 (by decide), h4 (by decide),
    h5 (by decide) (by decide), h6 (by decide), h7 (by decide) (by decide),
    h8 (by decide), h9 (by decide), h10 (by decide), h11 (by decide),
    h12 (by decide), h13 (by decide), h14 (by decide), h15 (by decide),
    h16 (by decide), h17 (by decide), h18 (by decide), h19 (by decide),
    h20 (by decide), h21 (by decide), h22 (by decide),
    h23 (by decide) (by decide)⟩

end TinySA
